import Mathlib

set_option allowUnsafeReducibility true

attribute [semireducible] Rat.sub Rat.add Rat.mul Rat.div Rat.neg Rat.inv Rat.blt

/-!
Shallow embedding of the Sintra anomaly-detection engine
(`src/event_manager/eventmanager.py`, `src/event_manager/anomaly_utils.py`,
`src/event_manager/anomaly_types.py`) for checking the natural-language
specification against the code.

Embedding conventions:
* Python floats are modelled as rationals (`ℚ`).  Every float value a Python
  run can hold is a rational number, and all comparisons in the engine are
  exact comparisons of stored values; only `sum/len` in `is_outlier` and
  `stdev` round in Python, which does not affect any claim settled here.
* Python dicts are modelled as insertion-ordered association lists
  (`PyDict`): assigning an existing key updates it in place, a new key is
  appended at the end, lookup returns the first (unique) binding.
* The persisted per-(probe, target) baseline files are modelled as a
  `BaselineStore` value threaded through the functions; the in-memory
  `route_history` dict is part of `EngineState`.
* Python truthiness (`if latency:`, `if loss:`, `if hop_ips:`) is modelled
  explicitly: `none` and `some 0` are falsy for numbers, `none` and
  `some []` for lists, `""` for strings.
* `statistics.stdev` is Python standard-library code, outside this
  repository; it is passed as an abstract parameter `stdev : List ℚ → ℚ`
  (the sample standard deviation).  No claim settled here depends on its
  numeric output, only on when it is consulted.
* Exceptions raised while reading/parsing one measurement file are modelled
  with `Except`; `analyze_all` catches them per file, as the source does.
-/

/-- Insertion-ordered association list modelling a Python `dict` with
string keys. -/
abbrev PyDict (α : Type) : Type := List (String × α)

/-- Python `d.get(k)` / `d[k]`: first binding for `k`, if any. -/
def PyDict.get {α : Type} : PyDict α → String → Option α
  | [], _ => none
  | p :: rest, k => if p.1 = k then some p.2 else PyDict.get rest k

/-- Python `d[k] = v`: replace the first binding for `k` in place, or append
a new binding at the end. -/
def PyDict.set {α : Type} : PyDict α → String → α → PyDict α
  | [], k, v => [(k, v)]
  | p :: rest, k, v => if p.1 = k then (k, v) :: rest else p :: PyDict.set rest k v

/-- Keys of the dict, in insertion order. -/
def PyDict.keys {α : Type} (m : PyDict α) : List String :=
  m.map Prod.fst

/-- Python truthiness of an optional float: `None` and `0.0` are falsy. -/
def qtruthy : Option ℚ → Bool
  | none => false
  | some v => decide (v ≠ 0)

/-- Value of an optional float (only meaningful under `qtruthy`). -/
def qval : Option ℚ → ℚ
  | none => 0
  | some v => v

/-- Python truthiness of an optional list: `None` and `[]` are falsy. -/
def ltruthy : Option (List String) → Bool
  | none => false
  | some l => decide (l ≠ [])

/-- Python `a or b` on optional strings (`None` and `""` are falsy). -/
def pyOrStr (a b : Option String) : Option String :=
  match a with
  | some s => if s = "" then b else some s
  | none => b

/-- Python `f"{x}"` of an optional string: `None` prints as `"None"`. -/
def tgtStr : Option String → String
  | none => "None"
  | some s => s

/-- Python `l[-k:]`: for `k = 0` the whole list, otherwise the trailing
`k` elements (the whole list when `k ≥ len(l)`). -/
def pyTail {α : Type} (l : List α) (k : Nat) : List α :=
  if k = 0 then l else l.drop (l.length - k)

/-! ## `anomaly_utils.py` -/

/-- `calculate_jitter` from `anomaly_utils.py`: `stdev(rtts)` when `rtts`
is truthy and has more than one element, else `0.0`.  `stdev` is
`statistics.stdev` (Python stdlib), passed as a parameter. -/
def calculate_jitter (stdev : List ℚ → ℚ) (rtts : List ℚ) : ℚ :=
  if rtts ≠ [] ∧ rtts.length > 1 then stdev rtts else 0

/-- `is_outlier` from `anomaly_utils.py`: drop `None` values, and flag when
the value is not `None` and exceeds the mean of the remaining values scaled
by `factor`. -/
def is_outlier (value : Option ℚ) (values : List (Option ℚ)) (factor : ℚ) : Bool :=
  let valid := values.filterMap id
  if valid = [] then false
  else
    match value with
    | none => false
    | some v => decide (v > valid.sum / (valid.length : ℚ) * factor)

/-- `geo_anomaly_check` from `anomaly_utils.py`. -/
def geo_anomaly_check (dist1 lat1 dist2 lat2 : Option ℚ) (margin : ℚ) : Bool :=
  match dist1, lat1, dist2, lat2 with
  | some d1, some l1, some d2, some l2 => decide (d1 > d2 ∧ l1 < l2 - margin)
  | _, _, _, _ => false

/-! ## `anomaly_types.py` -/

/-- One entry of the `ANOMALY_TYPES` registry. -/
structure AnomalyTypeInfo where
  description : String
  measurement_type : String
  latency_related : Bool
deriving DecidableEq

/-- The `ANOMALY_TYPES` registry from `anomaly_types.py`. -/
def ANOMALY_TYPES : PyDict AnomalyTypeInfo :=
  [("latency_spike",
    ⟨"RTT (Round Trip Time) exceeds a threshold (e.g., > 250 ms) or spikes suddenly", "ping", true⟩),
   ("packet_loss",
    ⟨"% of lost packets > threshold (e.g., 5-10%)", "ping", false⟩),
   ("unreachable_host",
    ⟨"100% packet loss, host not reachable, no ping replies", "ping, traceroute", false⟩),
   ("route_change",
    ⟨"Traceroute path is different than baseline path (hop IPs or count changed)", "traceroute", false⟩),
   ("path_flapping",
    ⟨"Route changes frequently (e.g., unstable topology)", "traceroute", false⟩),
   ("geo_anomaly",
    ⟨"Far probe suddenly has better latency than near one (suspicious routing)", "ping", true⟩),
   ("jitter_spike",
    ⟨"High variation in RTTs (instability, not necessarily high latency)", "ping", true⟩),
   ("outlier_probe_latency",
    ⟨"Only some probes report high delay (not the majority)", "ping", true⟩),
   ("outlier_probe_loss",
    ⟨"Only some probes report high loss (not the majority)", "ping", false⟩)]

/-! ## Data model -/

/-- The `latency_stats` object of a ping result record. -/
structure LatencyStats where
  avg : Option ℚ
  rtts : List ℚ
deriving DecidableEq

/-- One traceroute hop object; only its `ip` field is read. -/
structure Hop where
  ip : Option String
deriving DecidableEq

/-- One entry of `data["results"]`: a single probe's sample.  Absent JSON
fields are modelled as `none` / `[]`, matching the `.get` defaults used by
the source. -/
structure ResultRecord where
  probe_id : Option String
  target_address : Option String
  target : Option String
  measurement_type : String
  latency_stats : LatencyStats
  packet_loss_percentage : Option ℚ
  distance_km : Option ℚ
  hops : List Hop
deriving DecidableEq

/-- One parsed measurement file. -/
structure Measurement where
  measurement_id : Option String
  results : List ResultRecord
deriving DecidableEq

/-- The `thresholds` section of the configuration. -/
structure Thresholds where
  latency_spike_ms : ℚ
  latency_spike_multiplier : ℚ
  packet_loss_percentage : ℚ
  jitter_spike_ms : ℚ
  outlier_factor : ℚ
  geo_anomaly_margin_ms : ℚ
  path_flapping_window : Nat
deriving DecidableEq

/-- The `detection` section of the configuration. -/
structure Detection where
  enable_outlier_detection : Bool
  enable_geo_anomaly_detection : Bool
  enable_adaptive_baseline : Bool
deriving DecidableEq

/-- Engine configuration. -/
structure Config where
  thresholds : Thresholds
  detection : Detection
deriving DecidableEq

/-- The default configuration built in `_load_config`. -/
def defaultConfig : Config :=
  ⟨⟨250, 2, 10, 15, 2, 50, 3⟩, ⟨true, true, true⟩⟩

/-- An emitted anomaly event (`_create_event` plus the optional extra
fields `update`d onto routing events). -/
structure Event where
  timestamp : String
  anomaly : String
  probe_id : String
  target : Option String
  metric : String
  value : Option ℚ
  threshold : Option ℚ
  units : String
  severity : String
  previous_hops : Option (List String) := none
  current_hops : Option (List String) := none
  routes : Option (List (List String)) := none
deriving DecidableEq

/-- `_create_event`. -/
def create_event (timestamp anomaly probe_id : String) (target : Option String)
    (metric : String) (value threshold : Option ℚ) (units severity : String) : Event :=
  ⟨timestamp, anomaly, probe_id, target, metric, value, threshold, units, severity,
   none, none, none⟩

/-- The persisted baseline files, keyed by `f"{probe_id}_{target_addr}"`
(the `ping_`/`traceroute_` file-name prefixes are the two fields). -/
structure BaselineStore where
  rtts : PyDict ℚ
  hops : PyDict (List String)
deriving DecidableEq

/-- The per-call `probe_data` collector dictionaries. -/
structure ProbeData where
  latencies : PyDict (Option ℚ)
  distances : PyDict (Option ℚ)
  losses : PyDict (Option ℚ)
  jitters : PyDict ℚ
  targets : PyDict (Option String)
  traceroute_hops : PyDict (List String)
  baseline_rtts : PyDict (Option ℚ)
  baseline_hops : PyDict (Option (List String))

/-- The empty `probe_data` initialized at the top of `_collect_probe_data`. -/
def emptyProbeData : ProbeData :=
  ⟨[], [], [], [], [], [], [], []⟩

/-- Mutable engine state: persisted baseline files plus the in-memory
`route_history` dict. -/
structure EngineState where
  baselines : BaselineStore
  route_history : PyDict (List (List String))
deriving DecidableEq

/-- Engine state at process start: empty baseline directory, empty route
history. -/
def initialEngineState : EngineState :=
  ⟨⟨[], []⟩, []⟩

/-! ## Baseline store (`_get_and_update_baseline_rtt` / `_hops`) -/

/-- Key of the baseline file for one (probe, target) pair
(`f"{probe_id}_{target_addr}"`; Python renders `None` as `"None"`). -/
def baselineKey (probe_id : String) (target_addr : Option String) : String :=
  probe_id ++ "_" ++ tgtStr target_addr

/-- `_get_and_update_baseline_rtt`: read the previous baseline (or `none`),
then overwrite the stored value with `current_rtt` only when it is not
`None`. -/
def get_and_update_baseline_rtt (store : BaselineStore) (probe_id : String)
    (target_addr : Option String) (current_rtt : Option ℚ) :
    Option ℚ × BaselineStore :=
  let baseline_rtt := PyDict.get store.rtts (baselineKey probe_id target_addr)
  match current_rtt with
  | some r =>
    (baseline_rtt,
     { store with rtts := PyDict.set store.rtts (baselineKey probe_id target_addr) r })
  | none => (baseline_rtt, store)

/-- `_get_and_update_baseline_hops`: read the previous hop list (or `none`),
then unconditionally overwrite the stored value with `current_hops`. -/
def get_and_update_baseline_hops (store : BaselineStore) (probe_id : String)
    (target_addr : Option String) (current_hops : List String) :
    Option (List String) × BaselineStore :=
  let previous_hops := PyDict.get store.hops (baselineKey probe_id target_addr)
  (previous_hops,
   { store with hops := PyDict.set store.hops (baselineKey probe_id target_addr) current_hops })

/-! ## `_collect_probe_data` -/

/-- `_process_ping_data`. -/
def process_ping_data (cfg : Config) (stdev : List ℚ → ℚ) (result : ResultRecord)
    (probe_id : String) (target_addr : Option String)
    (pd : ProbeData) (store : BaselineStore) : ProbeData × BaselineStore :=
  let latency := result.latency_stats.avg
  let loss := result.packet_loss_percentage
  let rtts := result.latency_stats.rtts
  let pd := { pd with
    latencies := PyDict.set pd.latencies probe_id latency,
    losses := PyDict.set pd.losses probe_id loss,
    jitters := PyDict.set pd.jitters probe_id (calculate_jitter stdev rtts),
    distances := PyDict.set pd.distances probe_id result.distance_km }
  if cfg.detection.enable_adaptive_baseline then
    let r := get_and_update_baseline_rtt store probe_id target_addr latency
    ({ pd with baseline_rtts := PyDict.set pd.baseline_rtts probe_id r.1 }, r.2)
  else (pd, store)

/-- Derived `hop_ips`: the ordered hop `ip` values that are truthy
(not `None`, not `""`). -/
def hopIps (hops : List Hop) : List String :=
  hops.filterMap fun h =>
    match h.ip with
    | some ip => if ip = "" then none else some ip
    | none => none

/-- `_process_traceroute_data`. -/
def process_traceroute_data (result : ResultRecord) (probe_id : String)
    (target_addr : Option String) (pd : ProbeData) (store : BaselineStore) :
    ProbeData × BaselineStore :=
  let hop_ips := hopIps result.hops
  let pd := { pd with traceroute_hops := PyDict.set pd.traceroute_hops probe_id hop_ips }
  let r := get_and_update_baseline_hops store probe_id target_addr hop_ips
  ({ pd with baseline_hops := PyDict.set pd.baseline_hops probe_id r.1 }, r.2)

/-- One iteration of the result loop in `_collect_probe_data`. -/
def collect_step (cfg : Config) (stdev : List ℚ → ℚ)
    (acc : ProbeData × BaselineStore) (result : ResultRecord) :
    ProbeData × BaselineStore :=
  match result.probe_id with
  | none => acc
  | some probe_id =>
    if probe_id = "" then acc
    else
      let target_addr := pyOrStr result.target_address result.target
      let pd := { acc.1 with targets := PyDict.set acc.1.targets probe_id target_addr }
      if result.measurement_type = "ping" then
        process_ping_data cfg stdev result probe_id target_addr pd acc.2
      else if result.measurement_type = "traceroute" then
        process_traceroute_data result probe_id target_addr pd acc.2
      else (pd, acc.2)

/-- `_collect_probe_data`. -/
def collect_probe_data (cfg : Config) (stdev : List ℚ → ℚ)
    (results : List ResultRecord) (store : BaselineStore) :
    ProbeData × BaselineStore :=
  results.foldl (collect_step cfg stdev) (emptyProbeData, store)

/-! ## Detectors -/

/-- Direct index `probe_data['targets'][probe_id]` (total in the embedding;
only evaluated on keys the collector has populated). -/
def tgtOf (pd : ProbeData) (probe_id : String) : Option String :=
  (PyDict.get pd.targets probe_id).getD none

/-- `_detect_outlier_anomalies`. -/
def detect_outlier_anomalies (cfg : Config) (timestamp : String)
    (pd : ProbeData) : List Event :=
  if !cfg.detection.enable_outlier_detection then []
  else
    let outlier_factor := cfg.thresholds.outlier_factor
    (pd.latencies.filterMap fun p =>
      if qtruthy p.2 && is_outlier p.2 (pd.latencies.map Prod.snd) outlier_factor then
        some (create_event timestamp "outlier_probe_latency" p.1 (tgtOf pd p.1)
          "ping_rtt_ms" p.2 none "ms" "warning")
      else none)
    ++
    (pd.losses.filterMap fun p =>
      if qtruthy p.2 && decide (qval p.2 > 5) &&
          is_outlier p.2 (pd.losses.map Prod.snd) outlier_factor then
        some (create_event timestamp "outlier_probe_loss" p.1 (tgtOf pd p.1)
          "ping_loss_pct" p.2 none "%" "warning")
      else none)

/-- The body of the per-probe loop of `_detect_threshold_anomalies`. -/
def detect_threshold_for_probe (cfg : Config) (timestamp : String) (pd : ProbeData)
    (probe_id : String) (target_addr : Option String) : List Event :=
  let thresholds := cfg.thresholds
  let latency := (PyDict.get pd.latencies probe_id).getD none
  let latency_events :=
    if qtruthy latency then
      (if decide (qval latency > thresholds.latency_spike_ms) then
        [create_event timestamp "latency_spike" probe_id target_addr "ping_rtt_ms"
          latency (some thresholds.latency_spike_ms) "ms" "warning"]
      else [])
      ++
      (let baseline_rtt := (PyDict.get pd.baseline_rtts probe_id).getD none
       if qtruthy baseline_rtt &&
           decide (qval latency > qval baseline_rtt * thresholds.latency_spike_multiplier) then
        [create_event timestamp "latency_spike" probe_id target_addr "ping_rtt_ms"
          latency (some (qval baseline_rtt * thresholds.latency_spike_multiplier)) "ms" "warning"]
      else [])
    else []
  let loss := (PyDict.get pd.losses probe_id).getD none
  let loss_events :=
    if qtruthy loss && decide (qval loss > thresholds.packet_loss_percentage) then
      [create_event timestamp "packet_loss" probe_id target_addr "ping_loss_pct"
        loss (some thresholds.packet_loss_percentage) "%" "warning"]
    else []
  let unreachable_events :=
    if qtruthy loss && decide (qval loss = 100) then
      [create_event timestamp "unreachable_host" probe_id target_addr "reachability"
        (some 0) (some 1) "reachable_flag" "critical"]
    else []
  let jitter := PyDict.get pd.jitters probe_id
  let jitter_events :=
    if qtruthy jitter && decide (qval jitter > thresholds.jitter_spike_ms) then
      [create_event timestamp "jitter_spike" probe_id target_addr "ping_jitter_ms"
        jitter (some thresholds.jitter_spike_ms) "ms" "warning"]
    else []
  latency_events ++ loss_events ++ unreachable_events ++ jitter_events

/-- `_detect_threshold_anomalies`. -/
def detect_threshold_anomalies (cfg : Config) (timestamp : String)
    (pd : ProbeData) : List Event :=
  pd.targets.foldr (fun p acc => detect_threshold_for_probe cfg timestamp pd p.1 p.2 ++ acc) []

/-- Key of the in-memory route-history entry
(`f"{probe_id}_{target_addr}"`). -/
def routeKey (probe_id : String) (target_addr : Option String) : String :=
  probe_id ++ "_" ++ tgtStr target_addr

/-- The body of the per-probe loop of `_detect_routing_anomalies`:
route-change check, then path-flapping check against the mutated route
history. -/
def detect_routing_for_probe (cfg : Config) (timestamp : String) (pd : ProbeData)
    (history : PyDict (List (List String))) (probe_id : String)
    (target_addr : Option String) : List Event × PyDict (List (List String)) :=
  let current_hops := PyDict.get pd.traceroute_hops probe_id
  let previous_hops := (PyDict.get pd.baseline_hops probe_id).getD none
  let route_change_events :=
    if ltruthy previous_hops && ltruthy current_hops &&
        decide (previous_hops ≠ current_hops) then
      [{ create_event timestamp "route_change" probe_id target_addr "traceroute_hops"
           none none "" "warning" with
         previous_hops := previous_hops, current_hops := current_hops }]
    else []
  if ltruthy current_hops then
    let key := routeKey probe_id target_addr
    let updated := (PyDict.get history key).getD [] ++ [current_hops.getD []]
    let history := PyDict.set history key updated
    let flapping_window := cfg.thresholds.path_flapping_window
    if updated.length > flapping_window then
      let recent_routes := pyTail updated flapping_window
      if recent_routes.dedup.length > 1 then
        (route_change_events ++
         [{ create_event timestamp "path_flapping" probe_id target_addr "traceroute_hops"
              none none "" "warning" with
            routes := some recent_routes }], history)
      else (route_change_events, history)
    else (route_change_events, history)
  else (route_change_events, history)

/-- `_detect_routing_anomalies`. -/
def detect_routing_anomalies (cfg : Config) (timestamp : String) (pd : ProbeData)
    (history : PyDict (List (List String))) :
    List Event × PyDict (List (List String)) :=
  pd.targets.foldl
    (fun acc p =>
      let r := detect_routing_for_probe cfg timestamp pd acc.2 p.1 p.2
      (acc.1 ++ r.1, r.2))
    ([], history)

/-! ## `analyze_measurement`, `_analyze_single_file`, `analyze_all` -/

/-- `analyze_measurement`: collect per-probe metrics (updating baselines),
then run the outlier, threshold and routing detectors in that order. -/
def analyze_measurement (cfg : Config) (stdev : List ℚ → ℚ) (timestamp : String)
    (results : List ResultRecord) (st : EngineState) : List Event × EngineState :=
  let c := collect_probe_data cfg stdev results st.baselines
  let outlier_events := detect_outlier_anomalies cfg timestamp c.1
  let threshold_events := detect_threshold_anomalies cfg timestamp c.1
  let r := detect_routing_anomalies cfg timestamp c.1 st.route_history
  (outlier_events ++ threshold_events ++ r.1, ⟨c.2, r.2⟩)

/-- `_analyze_single_file`: a read/parse failure is re-raised (modelled as
`Except.error`); a missing or falsy `measurement_id` yields no events;
otherwise the measurement is analyzed and the events saved (`save_events`
catches its own I/O errors, so saving never raises). -/
def analyze_single_file (cfg : Config) (stdev : List ℚ → ℚ) (timestamp : String)
    (parsed : Except String Measurement) (st : EngineState) :
    Except String (List Event × EngineState) :=
  match parsed with
  | .error e => .error e
  | .ok data =>
    match data.measurement_id with
    | none => .ok ([], st)
    | some mid =>
      if mid = "" then .ok ([], st)
      else .ok (analyze_measurement cfg stdev timestamp data.results st)

/-- One iteration of the file loop in `analyze_all`: the `try` body either
succeeds (processed count up, state advanced) or raises, in which case the
exception is caught and the error count goes up. -/
def analyze_all_step (cfg : Config) (stdev : List ℚ → ℚ) (timestamp : String)
    (acc : Nat × Nat × EngineState) (file : Except String Measurement) :
    Nat × Nat × EngineState :=
  match analyze_single_file cfg stdev timestamp file acc.2.2 with
  | .ok r => (acc.1 + 1, acc.2.1, r.2)
  | .error _ => (acc.1, acc.2.1 + 1, acc.2.2)

/-- `analyze_all`: process every measurement file in sequence; a failure on
one file is caught, counted, and processing continues.  Returns
`(processed_count, error_count, final state)`. -/
def analyze_all (cfg : Config) (stdev : List ℚ → ℚ) (timestamp : String)
    (files : List (Except String Measurement)) (st : EngineState) :
    Nat × Nat × EngineState :=
  files.foldl (analyze_all_step cfg stdev timestamp) (0, 0, st)

/-- Whether reading and parsing one measurement file succeeds. -/
def fileOk : Except String Measurement → Bool
  | .ok _ => true
  | .error _ => false

/-! ## Drivers used to state temporal claims -/

/-- A measurement result record holding one traceroute sample. -/
def tracerouteRecord (probe_id target : String) (obs : List String) : ResultRecord :=
  { probe_id := some probe_id, target_address := some target, target := none,
    measurement_type := "traceroute",
    latency_stats := ⟨none, []⟩, packet_loss_percentage := none,
    distance_km := none, hops := obs.map (fun s => ⟨some s⟩) }

/-- A measurement result record holding one ping sample. -/
def pingRecord (probe_id target : String) (avg : Option ℚ) (rtts : List ℚ)
    (loss distance : Option ℚ) : ResultRecord :=
  { probe_id := some probe_id, target_address := some target, target := none,
    measurement_type := "ping",
    latency_stats := ⟨avg, rtts⟩, packet_loss_percentage := loss,
    distance_km := distance, hops := [] }

/-- Feed one single-traceroute measurement per `analyze_measurement` call
for a fixed (probe, target), returning each call's event list. -/
def runTraceSeq (cfg : Config) (stdev : List ℚ → ℚ) (timestamp : String)
    (probe_id target : String) (st : EngineState) :
    List (List String) → List (List Event)
  | [] => []
  | obs :: rest =>
    let r := analyze_measurement cfg stdev timestamp [tracerouteRecord probe_id target obs] st
    r.1 :: runTraceSeq cfg stdev timestamp probe_id target r.2 rest

/-! ## Specification-side definitions (for refinement claims) -/

/-- Modelled from the spec: `jitter == sampleStdDev(rtts)` when
`len(rtts) ≥ 2`, else `jitter == 0.0`.  The sample standard deviation is the
same abstract `stdev` parameter the code passes to `statistics.stdev`. -/
def jitterSpec (stdev : List ℚ → ℚ) (rtts : List ℚ) : ℚ :=
  if 2 ≤ rtts.length then stdev rtts else 0

/-! ## Association-list (Python dict) lemmas -/

theorem PyDict.get_set {α : Type} (m : PyDict α) (k k' : String) (v : α) :
    PyDict.get (PyDict.set m k v) k' = if k = k' then some v else PyDict.get m k' := by
  induction m with
  | nil => simp only [PyDict.set, PyDict.get]
  | cons p rest ih =>
    by_cases h : p.1 = k
    · simp only [PyDict.set, h, if_pos rfl, PyDict.get]
      by_cases h' : k = k'
      · simp [h']
      · simp [h', h ▸ h']
    · simp only [PyDict.set, if_neg h, PyDict.get, ih]
      by_cases h' : p.1 = k'
      · have : ¬ k = k' := fun hk => h (hk ▸ h')
        simp [h', this]
      · simp [h']

theorem PyDict.get_set_self {α : Type} (m : PyDict α) (k : String) (v : α) :
    PyDict.get (PyDict.set m k v) k = some v := by
  simp [PyDict.get_set]

theorem PyDict.mem_keys_set {α : Type} (m : PyDict α) (k x : String) (v : α) :
    x ∈ (PyDict.set m k v).keys ↔ x ∈ m.keys ∨ x = k := by
  induction m with
  | nil => simp [PyDict.set, PyDict.keys]
  | cons p rest ih =>
    by_cases h : p.1 = k
    · simp only [PyDict.set, if_pos h, PyDict.keys, List.map_cons, List.mem_cons]
      constructor
      · rintro (rfl | hx)
        · exact Or.inr rfl
        · exact Or.inl (Or.inr hx)
      · rintro ((rfl | hx) | rfl)
        · exact Or.inl h
        · exact Or.inr hx
        · exact Or.inl rfl
    · simp only [PyDict.set, if_neg h, PyDict.keys, List.map_cons, List.mem_cons] at ih ⊢
      rw [ih]
      tauto

theorem PyDict.nodup_keys_set {α : Type} (m : PyDict α) (k : String) (v : α)
    (h : m.keys.Nodup) : (PyDict.set m k v).keys.Nodup := by
  induction m with
  | nil => simp [PyDict.set, PyDict.keys]
  | cons p rest ih =>
    simp only [PyDict.keys, List.map_cons, List.nodup_cons] at h
    by_cases hk : p.1 = k
    · simp only [PyDict.set, if_pos hk, PyDict.keys, List.map_cons, List.nodup_cons]
      exact ⟨hk ▸ h.1, h.2⟩
    · simp only [PyDict.set, if_neg hk, PyDict.keys, List.map_cons, List.nodup_cons]
      refine ⟨fun hx => ?_, ih h.2⟩
      rcases (PyDict.mem_keys_set rest k p.1 v).1 hx with hx | rfl
      · exact h.1 hx
      · exact hk rfl

theorem PyDict.mem_keys_of_mem {α : Type} {m : PyDict α} {k : String} {v : α}
    (h : (k, v) ∈ m) : k ∈ m.keys :=
  List.mem_map_of_mem Prod.fst h

theorem PyDict.get_of_mem_nodup {α : Type} {m : PyDict α} {k : String} {v : α}
    (hnd : m.keys.Nodup) (h : (k, v) ∈ m) : PyDict.get m k = some v := by
  induction m with
  | nil => cases h
  | cons p rest ih =>
    simp only [PyDict.keys, List.map_cons, List.nodup_cons] at hnd
    rcases List.mem_cons.1 h with rfl | hmem
    · simp [PyDict.get]
    · have hne : p.1 ≠ k := fun he => hnd.1 (he ▸ PyDict.mem_keys_of_mem hmem)
      simp only [PyDict.get, if_neg hne]
      exact ih hnd.2 hmem

theorem PyDict.isSome_get_iff {α : Type} (m : PyDict α) (k : String) :
    (PyDict.get m k).isSome ↔ k ∈ m.keys := by
  induction m with
  | nil => simp [PyDict.get, PyDict.keys]
  | cons p rest ih =>
    by_cases h : p.1 = k
    · simp [PyDict.get, h, PyDict.keys]
    · simp [PyDict.get, h, PyDict.keys, ih, Ne.symm h]

/-! ## Basic facts about the pipeline pieces -/

theorem analyze_single_file_ok (cfg : Config) (stdev : List ℚ → ℚ) (ts : String)
    (m : Measurement) (st : EngineState) :
    ∃ r, analyze_single_file cfg stdev ts (Except.ok m) st = Except.ok r := by
  rcases m with ⟨mid, results⟩
  rcases mid with _ | mid
  · exact ⟨_, rfl⟩
  · simp only [analyze_single_file]
    split_ifs <;> exact ⟨_, rfl⟩

theorem analyze_all_counts_aux (cfg : Config) (stdev : List ℚ → ℚ) (ts : String) :
    ∀ (files : List (Except String Measurement)) (p e : Nat) (st : EngineState),
      (files.foldl (analyze_all_step cfg stdev ts) (p, e, st)).1
          = p + files.countP fileOk
        ∧ (files.foldl (analyze_all_step cfg stdev ts) (p, e, st)).2.1
          = e + files.countP (fun f => !fileOk f) := by
  intro files
  induction files with
  | nil => intro p e st; simp
  | cons f rest ih =>
    intro p e st
    rcases f with s | m
    · have hstep : analyze_all_step cfg stdev ts (p, e, st) (Except.error s)
          = (p, e + 1, st) := rfl
      simp only [List.foldl_cons, hstep]
      rcases ih p (e + 1) st with ⟨h1, h2⟩
      refine ⟨by rw [h1]; simp [List.countP_cons, fileOk], ?_⟩
      rw [h2]
      simp [List.countP_cons, fileOk]
      omega
    · obtain ⟨r, hr⟩ := analyze_single_file_ok cfg stdev ts m st
      have hstep : analyze_all_step cfg stdev ts (p, e, st) (Except.ok m)
          = (p + 1, e, r.2) := by
        simp [analyze_all_step, hr]
      simp only [List.foldl_cons, hstep]
      rcases ih (p + 1) e r.2 with ⟨h1, h2⟩
      refine ⟨?_, by rw [h2]; simp [List.countP_cons, fileOk]⟩
      rw [h1]
      simp [List.countP_cons, fileOk]
      omega

/-! ## Claim theorems -/

/-- Claim C6: `_get_and_update_baseline_rtt` always returns the previously
stored latency baseline (or `none` when absent) and leaves the store
unchanged when the current RTT is `None` (write skipped), while
`_get_and_update_baseline_hops` always overwrites the stored hop baseline
with the current hop list, including when that list is empty, also returning
the previous value; a non-`None` RTT is written. -/
theorem baseline_store_get_update_semantics (store : BaselineStore)
    (probe_id : String) (target_addr : Option String) (current_rtt : Option ℚ)
    (r : ℚ) (current_hops : List String) :
    (get_and_update_baseline_rtt store probe_id target_addr current_rtt).1
      = PyDict.get store.rtts (baselineKey probe_id target_addr)
    ∧ (get_and_update_baseline_rtt store probe_id target_addr none).2 = store
    ∧ PyDict.get (get_and_update_baseline_rtt store probe_id target_addr (some r)).2.rtts
        (baselineKey probe_id target_addr) = some r
    ∧ (get_and_update_baseline_hops store probe_id target_addr current_hops).1
      = PyDict.get store.hops (baselineKey probe_id target_addr)
    ∧ PyDict.get (get_and_update_baseline_hops store probe_id target_addr current_hops).2.hops
        (baselineKey probe_id target_addr) = some current_hops := by
  refine ⟨?_, rfl, ?_, rfl, ?_⟩
  · cases current_rtt <;> rfl
  · simp [get_and_update_baseline_rtt, PyDict.get_set_self]
  · simp [get_and_update_baseline_hops, PyDict.get_set_self]

/-- Claim C7: the jitter computed by the collector for a ping record,
`calculate_jitter stdev rtts` with `stdev = statistics.stdev` (the sample
standard deviation), equals `stdev rtts` exactly when the RTT sequence has
at least two elements, and equals `0.0` when the sequence is empty or has
fewer than two elements (`jitterSpec`). -/
theorem calculate_jitter_eq_spec (stdev : List ℚ → ℚ) (rtts : List ℚ) :
    calculate_jitter stdev rtts = jitterSpec stdev rtts := by
  unfold calculate_jitter jitterSpec
  rcases rtts with _ | ⟨a, rest⟩
  · simp
  · have hiff : ((a :: rest) ≠ [] ∧ (a :: rest).length > 1) ↔ 2 ≤ (a :: rest).length := by
      simp only [ne_eq, List.length_cons]
      constructor
      · intro h; omega
      · intro h; exact ⟨List.cons_ne_nil a rest, by omega⟩
    rw [if_congr hiff rfl rfl]

/-- Claim C9: a batch run over any list of measurement files never lets a
per-file failure escape: `analyze_all` is a total function that always
completes, its processed count is the number of files whose read/parse
succeeds, its error count is the number of files whose read/parse raises,
and the two counts always sum to the number of files. -/
theorem analyze_all_never_escapes (cfg : Config) (stdev : List ℚ → ℚ)
    (ts : String) (files : List (Except String Measurement)) (st : EngineState) :
    (analyze_all cfg stdev ts files st).1 = files.countP fileOk
    ∧ (analyze_all cfg stdev ts files st).2.1 = files.countP (fun f => !fileOk f)
    ∧ (analyze_all cfg stdev ts files st).1 + (analyze_all cfg stdev ts files st).2.1
      = files.length := by
  obtain ⟨h1, h2⟩ := analyze_all_counts_aux cfg stdev ts files 0 0 st
  refine ⟨by simpa using h1, by simpa using h2, ?_⟩
  unfold analyze_all
  rw [h1, h2]
  simp [List.length_eq_countP_add_countP fileOk]

/-- A concrete stand-in for `statistics.stdev` used in closed scenario
theorems; every scenario below has an empty RTT list, so the jitter is `0`
whatever function is passed. -/
def zeroStdev : List ℚ → ℚ := fun _ => 0

/-- Claim C1 (code bug): on the spec's own scenario — ping probes A
(distance 500 km, latency 40 ms) and B (distance 50 km, latency 120 ms),
default margin 50 ms — the helper `geo_anomaly_check` does flag A over B and
geo-anomaly detection is enabled by default, yet `analyze_measurement`
returns no event at all, in particular no `geo_anomaly` event: the engine
imports the helper but never invokes any geo-anomaly detector. -/
theorem geo_anomaly_never_emitted_scenario :
    geo_anomaly_check (some 500) (some 40) (some 50) (some 120)
      defaultConfig.thresholds.geo_anomaly_margin_ms = true
    ∧ defaultConfig.detection.enable_geo_anomaly_detection = true
    ∧ (analyze_measurement defaultConfig zeroStdev ""
        [pingRecord "A" "T" (some 40) [] none (some 500),
         pingRecord "B" "T" (some 120) [] none (some 50)]
        initialEngineState).1 = [] := by
  decide

/-- Claim C2 (code bug): the `ANOMALY_TYPES` registry declares that
`unreachable_host` applies to traceroute measurements, and in this scenario
the derived `hop_ips` list `["h1", "h2"]` is non-empty with a last element
different from the target address `"T"`, yet `analyze_measurement` emits no
event at all: `_detect_routing_anomalies` contains no unreachable-host
check. -/
theorem traceroute_unreachable_never_emitted_scenario :
    PyDict.get ANOMALY_TYPES "unreachable_host" =
      some ⟨"100% packet loss, host not reachable, no ping replies", "ping, traceroute", false⟩
    ∧ hopIps (tracerouteRecord "P" "T" ["h1", "h2"]).hops = ["h1", "h2"]
    ∧ ["h1", "h2"].getLast? = some "h2"
    ∧ "h2" ≠ "T"
    ∧ (analyze_measurement defaultConfig zeroStdev ""
        [tracerouteRecord "P" "T" ["h1", "h2"]] initialEngineState).1 = [] := by
  decide

/-- Claim C3, counterexample: feeding hop lists `[A,B,C]`, `[A,B,D]`,
`[A,B,C]` for one (probe, target) with the default window 3, the trailing
window of the third call holds two distinct routes, yet the third call
emits no `path_flapping` event (the code requires strictly more than
`flapping_window` observations before it evaluates the window). -/
theorem path_flapping_scenario_third_call_empty :
    2 ≤ (pyTail [["A", "B", "C"], ["A", "B", "D"], ["A", "B", "C"]]
          defaultConfig.thresholds.path_flapping_window).dedup.length
    ∧ ((runTraceSeq defaultConfig zeroStdev "" "p" "t" initialEngineState
        [["A", "B", "C"], ["A", "B", "D"], ["A", "B", "C"]]).getD 2 []).filter
        (fun e => decide (e.anomaly = "path_flapping")) = [] := by
  decide

/-- Claim C4, counterexample: after a first pass stores a latency baseline
of `0.0` for probe P, a second pass with latency `10` fetches baseline
`B = 0`, and `10 > 0 * 2 = B * multiplier` holds, yet no `latency_spike`
event (adaptive or otherwise) is emitted: the code tests the baseline for
truthiness, so a zero baseline disables the adaptive check. -/
theorem adaptive_spike_zero_baseline_counterexample :
    (collect_probe_data defaultConfig zeroStdev
        [pingRecord "P" "T" (some 10) [] none none]
        (analyze_measurement defaultConfig zeroStdev ""
          [pingRecord "P" "T" (some 0) [] none none]
          initialEngineState).2.baselines).1.baseline_rtts = [("P", some 0)]
    ∧ (10 : ℚ) > 0 * defaultConfig.thresholds.latency_spike_multiplier
    ∧ (analyze_measurement defaultConfig zeroStdev ""
        [pingRecord "P" "T" (some 10) [] none none]
        (analyze_measurement defaultConfig zeroStdev ""
          [pingRecord "P" "T" (some 0) [] none none]
          initialEngineState).2).1.filter
        (fun e => decide (e.anomaly = "latency_spike")) = [] := by
  decide

/-- Claim C8, counterexample: a measurement in which exactly one probe
reports a (negative) latency value is flagged by the outlier detector even
though the factor is `2 ≥ 1`: with value `-10`, the mean is `-10` and
`-10 > -10 * 2` holds, so the probe self-flags. -/
theorem single_probe_self_flag_counterexample :
    1 ≤ defaultConfig.thresholds.outlier_factor
    ∧ (analyze_measurement defaultConfig zeroStdev ""
        [pingRecord "P" "T" (some (-10)) [] none none]
        initialEngineState).1.any
        (fun e => decide (e.anomaly = "outlier_probe_latency" ∧ e.probe_id = "P")) = true := by
  decide

/-! ## Small evaluation lemmas -/

@[simp] theorem qtruthy_some (v : ℚ) : qtruthy (some v) = decide (v ≠ 0) := rfl

@[simp] theorem qtruthy_none : qtruthy none = false := rfl

@[simp] theorem qval_some (v : ℚ) : qval (some v) = v := rfl

@[simp] theorem qval_none : qval none = 0 := rfl

@[simp] theorem ltruthy_some (l : List String) : ltruthy (some l) = decide (l ≠ []) := rfl

@[simp] theorem ltruthy_none : ltruthy none = false := rfl

@[simp] theorem create_event_timestamp (ts a pid : String) (tgt : Option String)
    (m : String) (v th : Option ℚ) (u s : String) :
    (create_event ts a pid tgt m v th u s).timestamp = ts := rfl

@[simp] theorem create_event_anomaly (ts a pid : String) (tgt : Option String)
    (m : String) (v th : Option ℚ) (u s : String) :
    (create_event ts a pid tgt m v th u s).anomaly = a := rfl

@[simp] theorem create_event_probe_id (ts a pid : String) (tgt : Option String)
    (m : String) (v th : Option ℚ) (u s : String) :
    (create_event ts a pid tgt m v th u s).probe_id = pid := rfl

@[simp] theorem create_event_target (ts a pid : String) (tgt : Option String)
    (m : String) (v th : Option ℚ) (u s : String) :
    (create_event ts a pid tgt m v th u s).target = tgt := rfl

@[simp] theorem create_event_value (ts a pid : String) (tgt : Option String)
    (m : String) (v th : Option ℚ) (u s : String) :
    (create_event ts a pid tgt m v th u s).value = v := rfl

@[simp] theorem create_event_threshold (ts a pid : String) (tgt : Option String)
    (m : String) (v th : Option ℚ) (u s : String) :
    (create_event ts a pid tgt m v th u s).threshold = th := rfl

@[simp] theorem create_event_units (ts a pid : String) (tgt : Option String)
    (m : String) (v th : Option ℚ) (u s : String) :
    (create_event ts a pid tgt m v th u s).units = u := rfl

@[simp] theorem create_event_severity (ts a pid : String) (tgt : Option String)
    (m : String) (v th : Option ℚ) (u s : String) :
    (create_event ts a pid tgt m v th u s).severity = s := rfl

/-- Filtering a conditional singleton whose element fails the predicate
yields nothing. -/
theorem filter_if_single {p : Event → Bool} {c : Prop} [Decidable c] {a : Event}
    (h : p a = false) : List.filter p (if c then [a] else []) = [] := by
  split <;> simp [h]

/-- Filtering a conditional singleton whose element passes the predicate
leaves it as is. -/
theorem filter_if_single_pos {p : Event → Bool} {c : Prop} [Decidable c] {a : Event}
    (h : p a = true) : List.filter p (if c then [a] else []) = if c then [a] else [] := by
  split <;> simp [h]

/-- Claim C4 (amended): for a probe with current latency `L` and fetched
baseline `B`, the `latency_spike` events the threshold detector emits for
that probe are exactly the static event (when `L` is truthy and
`L > latency_spike_ms`) followed by the adaptive event with
`threshold = B * latency_spike_multiplier` (when `L` is truthy, `B` is
truthy, and `L > B * latency_spike_multiplier`); the two checks are
independent, so both events appear together whenever both conditions hold.
The original claim's "adaptive event iff `L > B * multiplier`" fails when
`B = 0` (or `L = 0`): the code tests truthiness, not presence. -/
theorem adaptive_latency_spike_characterization (cfg : Config) (ts : String)
    (pd : ProbeData) (probe_id : String) (target_addr : Option String) (L B : ℚ)
    (hL : PyDict.get pd.latencies probe_id = some (some L))
    (hB : PyDict.get pd.baseline_rtts probe_id = some (some B)) :
    (detect_threshold_for_probe cfg ts pd probe_id target_addr).filter
      (fun e => decide (e.anomaly = "latency_spike")) =
    (if L ≠ 0 ∧ L > cfg.thresholds.latency_spike_ms then
      [create_event ts "latency_spike" probe_id target_addr "ping_rtt_ms" (some L)
        (some cfg.thresholds.latency_spike_ms) "ms" "warning"]
     else [])
    ++ (if L ≠ 0 ∧ B ≠ 0 ∧ L > B * cfg.thresholds.latency_spike_multiplier then
      [create_event ts "latency_spike" probe_id target_addr "ping_rtt_ms" (some L)
        (some (B * cfg.thresholds.latency_spike_multiplier)) "ms" "warning"]
     else []) := by
  have hlat : (PyDict.get pd.latencies probe_id).getD none = some L := by
    rw [hL]; rfl
  have hbase : (PyDict.get pd.baseline_rtts probe_id).getD none = some B := by
    rw [hB]; rfl
  simp only [detect_threshold_for_probe, hlat, hbase, qtruthy_some, qval_some]
  rw [List.filter_append, List.filter_append, List.filter_append]
  rw [filter_if_single (a := create_event ts "packet_loss" probe_id target_addr
        "ping_loss_pct" ((PyDict.get pd.losses probe_id).getD none)
        (some cfg.thresholds.packet_loss_percentage) "%" "warning") (by simp),
      filter_if_single (a := create_event ts "unreachable_host" probe_id target_addr
        "reachability" (some 0) (some 1) "reachable_flag" "critical") (by simp),
      filter_if_single (a := create_event ts "jitter_spike" probe_id target_addr
        "ping_jitter_ms" (PyDict.get pd.jitters probe_id)
        (some cfg.thresholds.jitter_spike_ms) "ms" "warning") (by simp)]
  by_cases hL0 : L = 0
  · simp [hL0]
  · by_cases h1 : L > cfg.thresholds.latency_spike_ms <;>
      by_cases h2 : B = 0 <;>
      by_cases h3 : L > B * cfg.thresholds.latency_spike_multiplier <;>
      simp [hL0, h1, h2, h3]

/-- Probe data exhibiting the double emission of claim C4: latency 600 with
stored baseline 100 under the default thresholds. -/
def thresholdWitnessData : ProbeData :=
  ⟨[("p", some 600)], [], [], [], [("p", some "t")], [], [("p", some 100)], []⟩

/-- Witness for the amended claim C4: latency 600 against baseline 100 fires
both the static event (threshold 250) and the adaptive event
(threshold 200) for the same probe in the same pass. -/
theorem adaptive_latency_spike_characterization_witness :
    (detect_threshold_for_probe defaultConfig "" thresholdWitnessData "p" (some "t")).filter
      (fun e => decide (e.anomaly = "latency_spike")) =
    [create_event "" "latency_spike" "p" (some "t") "ping_rtt_ms" (some 600)
      (some 250) "ms" "warning",
     create_event "" "latency_spike" "p" (some "t") "ping_rtt_ms" (some 600)
      (some 200) "ms" "warning"] :=
  (adaptive_latency_spike_characterization defaultConfig "" thresholdWitnessData
    "p" (some "t") 600 100 (by decide) (by decide)).trans (by decide)

/-- With a single non-null value, the outlier mean is the value itself and
the test `v > v * factor` fails for non-negative `v` and factor ≥ 1. -/
theorem is_outlier_single (vals : List (Option ℚ)) (v factor : ℚ)
    (hv : vals.filterMap id = [v]) (hf : 1 ≤ factor) (h0 : 0 ≤ v) :
    is_outlier (some v) vals factor = false := by
  unfold is_outlier
  rw [hv]
  have hle : v ≤ v * factor := le_mul_of_one_le_right h0 hf
  simp [not_lt.2 (by simpa using hle)]

/-- Under the hypotheses of claim C8 (one non-null latency value `v ≥ 0`,
factor ≥ 1), the latency half of the outlier detector emits nothing. -/
theorem outlier_latency_filterMap_nil (cfg : Config) (ts : String) (pd : ProbeData)
    (v : ℚ) (hf : 1 ≤ cfg.thresholds.outlier_factor)
    (hv : (pd.latencies.map Prod.snd).filterMap id = [v]) (h0 : 0 ≤ v) :
    (pd.latencies.filterMap fun p =>
      if qtruthy p.2 && is_outlier p.2 (pd.latencies.map Prod.snd)
          cfg.thresholds.outlier_factor then
        some (create_event ts "outlier_probe_latency" p.1 (tgtOf pd p.1)
          "ping_rtt_ms" p.2 none "ms" "warning")
      else none) = [] := by
  rw [List.filterMap_eq_nil_iff]
  rintro ⟨k, o⟩ hp
  rcases o with _ | x
  · simp
  · have hx : x = v := by
      have hmem : x ∈ (pd.latencies.map Prod.snd).filterMap id :=
        List.mem_filterMap.2 ⟨some x, List.mem_map_of_mem Prod.snd hp, rfl⟩
      rw [hv] at hmem
      simpa using hmem
    subst hx
    simp [is_outlier_single _ _ _ hv hf h0]

/-- Under the hypotheses of claim C8 (one non-null loss value `w`,
factor ≥ 1), the loss half of the outlier detector emits nothing: the 5 %
floor forces the flagged value to be positive, and with itself as the only
peer the outlier test then fails. -/
theorem outlier_loss_filterMap_nil (cfg : Config) (ts : String) (pd : ProbeData)
    (w : ℚ) (hf : 1 ≤ cfg.thresholds.outlier_factor)
    (hw : (pd.losses.map Prod.snd).filterMap id = [w]) :
    (pd.losses.filterMap fun p =>
      if qtruthy p.2 && decide (qval p.2 > 5) &&
          is_outlier p.2 (pd.losses.map Prod.snd) cfg.thresholds.outlier_factor then
        some (create_event ts "outlier_probe_loss" p.1 (tgtOf pd p.1)
          "ping_loss_pct" p.2 none "%" "warning")
      else none) = [] := by
  rw [List.filterMap_eq_nil_iff]
  rintro ⟨k, o⟩ hp
  rcases o with _ | x
  · simp
  · have hx : x = w := by
      have hmem : x ∈ (pd.losses.map Prod.snd).filterMap id :=
        List.mem_filterMap.2 ⟨some x, List.mem_map_of_mem Prod.snd hp, rfl⟩
      rw [hw] at hmem
      simpa using hmem
    subst hx
    by_cases hw5 : x > 5
    · simp [is_outlier_single _ _ _ hw hf (le_of_lt (lt_trans (by norm_num) hw5))]
    · simp [hw5]

/-- Claim C8 (amended): in a measurement where exactly one probe reports a
non-null latency value `v`, the outlier detector never flags any probe when
the factor is at least 1 and `v` is non-negative (with itself included the
mean is `v` and `v > v * factor` fails); the same holds for a single
non-null loss value with no sign hypothesis, because the 5 % floor already
forces positivity.  The original claim omits the non-negativity condition,
without which a single negative latency self-flags (see counterexample). -/
theorem single_value_probe_never_self_flagged (cfg : Config) (ts : String)
    (pd : ProbeData) (v w : ℚ) (hf : 1 ≤ cfg.thresholds.outlier_factor) :
    ((pd.latencies.map Prod.snd).filterMap id = [v] → 0 ≤ v →
      (detect_outlier_anomalies cfg ts pd).all
        (fun e => !(decide (e.anomaly = "outlier_probe_latency"))) = true)
    ∧ ((pd.losses.map Prod.snd).filterMap id = [w] →
      (detect_outlier_anomalies cfg ts pd).all
        (fun e => !(decide (e.anomaly = "outlier_probe_loss"))) = true) := by
  constructor
  · intro hv h0
    unfold detect_outlier_anomalies
    split
    · rfl
    · dsimp only
      rw [outlier_latency_filterMap_nil cfg ts pd v hf hv h0]
      simp only [List.nil_append, List.all_eq_true]
      intro e he
      obtain ⟨p, hp, hpe⟩ := List.mem_filterMap.1 he
      split at hpe
      · cases hpe
        simp
      · cases hpe
  · intro hw
    unfold detect_outlier_anomalies
    split
    · rfl
    · dsimp only
      rw [outlier_loss_filterMap_nil cfg ts pd w hf hw]
      simp only [List.append_nil, List.all_eq_true]
      intro e he
      obtain ⟨p, hp, hpe⟩ := List.mem_filterMap.1 he
      split at hpe
      · cases hpe
        simp
      · cases hpe

/-- Probe data in which exactly one probe reports a latency (7) and a
loss (50). -/
def outlierWitnessData : ProbeData :=
  ⟨[("p", some 7)], [], [("p", some 50)], [], [("p", some "t")], [], [], []⟩

/-- Witness for the amended claim C8 at latency 7 and loss 50 under the
default factor 2: no outlier event of either kind is emitted. -/
theorem single_value_probe_never_self_flagged_witness :
    ((detect_outlier_anomalies defaultConfig "" outlierWitnessData).all
      (fun e => !(decide (e.anomaly = "outlier_probe_latency"))) = true)
    ∧ ((detect_outlier_anomalies defaultConfig "" outlierWitnessData).all
      (fun e => !(decide (e.anomaly = "outlier_probe_loss"))) = true) :=
  ⟨(single_value_probe_never_self_flagged defaultConfig "" outlierWitnessData
      7 50 (by decide)).1 (by decide) (by decide),
   (single_value_probe_never_self_flagged defaultConfig "" outlierWitnessData
      7 50 (by decide)).2 (by decide)⟩

/-! ## Collector invariants -/

/-- The collector's `targets`, `latencies` and `losses` dicts have unique
keys (they are Python dicts). -/
def ProbeData.nodupKeys (pd : ProbeData) : Prop :=
  pd.targets.keys.Nodup ∧ pd.latencies.keys.Nodup ∧ pd.losses.keys.Nodup

theorem process_ping_data_fields (cfg : Config) (stdev : List ℚ → ℚ)
    (r : ResultRecord) (pid : String) (t : Option String) (pd : ProbeData)
    (store : BaselineStore) :
    (process_ping_data cfg stdev r pid t pd store).1.targets = pd.targets
    ∧ (process_ping_data cfg stdev r pid t pd store).1.latencies
      = PyDict.set pd.latencies pid r.latency_stats.avg
    ∧ (process_ping_data cfg stdev r pid t pd store).1.losses
      = PyDict.set pd.losses pid r.packet_loss_percentage := by
  unfold process_ping_data
  split <;> exact ⟨rfl, rfl, rfl⟩

theorem process_traceroute_data_fields (r : ResultRecord) (pid : String)
    (t : Option String) (pd : ProbeData) (store : BaselineStore) :
    (process_traceroute_data r pid t pd store).1.targets = pd.targets
    ∧ (process_traceroute_data r pid t pd store).1.latencies = pd.latencies
    ∧ (process_traceroute_data r pid t pd store).1.losses = pd.losses :=
  ⟨rfl, rfl, rfl⟩

theorem collect_step_nodup (cfg : Config) (stdev : List ℚ → ℚ)
    (acc : ProbeData × BaselineStore) (r : ResultRecord)
    (h : acc.1.nodupKeys) : ((collect_step cfg stdev acc r).1).nodupKeys := by
  obtain ⟨h1, h2, h3⟩ := h
  unfold collect_step
  rcases hpid : r.probe_id with _ | pid
  · exact ⟨h1, h2, h3⟩
  · simp only
    split
    · exact ⟨h1, h2, h3⟩
    · have htg : (PyDict.set acc.1.targets pid
          (pyOrStr r.target_address r.target)).keys.Nodup :=
        PyDict.nodup_keys_set _ _ _ h1
      split
      · obtain ⟨f1, f2, f3⟩ := process_ping_data_fields cfg stdev r pid
          (pyOrStr r.target_address r.target)
          { acc.1 with targets := PyDict.set acc.1.targets pid (pyOrStr r.target_address r.target) }
          acc.2
        refine ⟨?_, ?_, ?_⟩
        · rw [f1]; exact htg
        · rw [f2]; exact PyDict.nodup_keys_set _ _ _ h2
        · rw [f3]; exact PyDict.nodup_keys_set _ _ _ h3
      · split
        · obtain ⟨f1, f2, f3⟩ := process_traceroute_data_fields r pid
            (pyOrStr r.target_address r.target)
            { acc.1 with targets := PyDict.set acc.1.targets pid (pyOrStr r.target_address r.target) }
            acc.2
          refine ⟨?_, ?_, ?_⟩
          · rw [f1]; exact htg
          · rw [f2]; exact h2
          · rw [f3]; exact h3
        · exact ⟨htg, h2, h3⟩

theorem collect_nodupKeys (cfg : Config) (stdev : List ℚ → ℚ)
    (results : List ResultRecord) (store : BaselineStore) :
    ((collect_probe_data cfg stdev results store).1).nodupKeys := by
  have haux : ∀ (rs : List ResultRecord) (acc : ProbeData × BaselineStore),
      acc.1.nodupKeys → ((rs.foldl (collect_step cfg stdev) acc).1).nodupKeys := by
    intro rs
    induction rs with
    | nil => intro acc h; exact h
    | cons r rest ih => intro acc h; exact ih _ (collect_step_nodup cfg stdev acc r h)
  exact haux results (emptyProbeData, store) ⟨List.nodup_nil, List.nodup_nil, List.nodup_nil⟩

/-! ## Detector inventories -/

/-- Membership in a conditional singleton. -/
theorem mem_if_singleton {α : Type} {c : Prop} [Decidable c] {a e : α} :
    e ∈ (if c then [a] else []) ↔ c ∧ e = a := by
  split
  · rename_i h
    simp [h]
  · rename_i h
    simp [h]

/-- Every event the per-probe threshold pass emits carries the probe id it
was called with, one of the four threshold anomaly kinds, and the truthiness
facts its guard requires. -/
theorem detect_threshold_for_probe_cases (cfg : Config) (ts : String)
    (pd : ProbeData) (k : String) (t : Option String) (e : Event)
    (he : e ∈ detect_threshold_for_probe cfg ts pd k t) :
    e.probe_id = k ∧
    ((e.anomaly = "latency_spike"
        ∧ qtruthy ((PyDict.get pd.latencies k).getD none) = true)
     ∨ ((e.anomaly = "packet_loss" ∨ e.anomaly = "unreachable_host")
        ∧ qtruthy ((PyDict.get pd.losses k).getD none) = true)
     ∨ e.anomaly = "jitter_spike") := by
  simp only [detect_threshold_for_probe] at he
  rcases List.mem_append.1 he with h | h
  rotate_left
  · rw [mem_if_singleton] at h
    obtain ⟨hc, rfl⟩ := h
    exact ⟨rfl, Or.inr (Or.inr rfl)⟩
  rcases List.mem_append.1 h with h | h
  rotate_left
  · rw [mem_if_singleton] at h
    obtain ⟨hc, rfl⟩ := h
    rw [Bool.and_eq_true] at hc
    exact ⟨rfl, Or.inr (Or.inl ⟨Or.inr rfl, hc.1⟩)⟩
  rcases List.mem_append.1 h with h | h
  rotate_left
  · rw [mem_if_singleton] at h
    obtain ⟨hc, rfl⟩ := h
    rw [Bool.and_eq_true] at hc
    exact ⟨rfl, Or.inr (Or.inl ⟨Or.inl rfl, hc.1⟩)⟩
  by_cases hlat : qtruthy ((PyDict.get pd.latencies k).getD none) = true
  · rw [if_pos hlat] at h
    rcases List.mem_append.1 h with h2 | h2 <;>
      · rw [mem_if_singleton] at h2
        obtain ⟨hc, rfl⟩ := h2
        exact ⟨rfl, Or.inl ⟨rfl, hlat⟩⟩
  · rw [if_neg hlat] at h
    cases h

/-- Every event the outlier detector emits is an outlier event whose probe
id comes from a truthy entry of the corresponding metric dict. -/
theorem detect_outlier_anomalies_cases (cfg : Config) (ts : String)
    (pd : ProbeData) (e : Event) (he : e ∈ detect_outlier_anomalies cfg ts pd) :
    (e.anomaly = "outlier_probe_latency"
      ∧ ∃ p, p ∈ pd.latencies ∧ e.probe_id = p.1 ∧ qtruthy p.2 = true)
    ∨ (e.anomaly = "outlier_probe_loss"
      ∧ ∃ p, p ∈ pd.losses ∧ e.probe_id = p.1 ∧ qtruthy p.2 = true) := by
  unfold detect_outlier_anomalies at he
  split at he
  · cases he
  · dsimp only at he
    rcases List.mem_append.1 he with h | h
    · obtain ⟨p, hp, hpe⟩ := List.mem_filterMap.1 h
      split at hpe
      · rename_i hc
        cases hpe
        rw [Bool.and_eq_true] at hc
        exact Or.inl ⟨rfl, p, hp, rfl, hc.1⟩
      · cases hpe
    · obtain ⟨p, hp, hpe⟩ := List.mem_filterMap.1 h
      split at hpe
      · rename_i hc
        cases hpe
        rw [Bool.and_eq_true, Bool.and_eq_true] at hc
        exact Or.inr ⟨rfl, p, hp, rfl, hc.1.1⟩
      · cases hpe

/-- Every event the per-probe routing pass emits is a `route_change` or
`path_flapping` event for the probe it was called with. -/
theorem detect_routing_for_probe_cases (cfg : Config) (ts : String)
    (pd : ProbeData) (hist : PyDict (List (List String))) (k : String)
    (t : Option String) (e : Event)
    (he : e ∈ (detect_routing_for_probe cfg ts pd hist k t).1) :
    (e.anomaly = "route_change" ∨ e.anomaly = "path_flapping") ∧ e.probe_id = k := by
  unfold detect_routing_for_probe at he
  dsimp only at he
  split at he
  · split at he
    · split at he
      · dsimp only at he
        rcases List.mem_append.1 he with h | h
        · rw [mem_if_singleton] at h
          obtain ⟨hc, rfl⟩ := h
          exact ⟨Or.inl rfl, rfl⟩
        · rcases List.mem_singleton.1 h with rfl
          exact ⟨Or.inr rfl, rfl⟩
      · dsimp only at he
        rw [mem_if_singleton] at he
        obtain ⟨hc, rfl⟩ := he
        exact ⟨Or.inl rfl, rfl⟩
    · dsimp only at he
      rw [mem_if_singleton] at he
      obtain ⟨hc, rfl⟩ := he
      exact ⟨Or.inl rfl, rfl⟩
  · dsimp only at he
    rw [mem_if_singleton] at he
    obtain ⟨hc, rfl⟩ := he
    exact ⟨Or.inl rfl, rfl⟩

/-- Every event the routing detector emits is a `route_change` or
`path_flapping` event. -/
theorem detect_routing_anomalies_cases (cfg : Config) (ts : String)
    (pd : ProbeData) (history : PyDict (List (List String))) (e : Event)
    (he : e ∈ (detect_routing_anomalies cfg ts pd history).1) :
    e.anomaly = "route_change" ∨ e.anomaly = "path_flapping" := by
  unfold detect_routing_anomalies at he
  have haux : ∀ (l : List (String × Option String))
      (acc : List Event × PyDict (List (List String))),
      (∀ x ∈ acc.1, x.anomaly = "route_change" ∨ x.anomaly = "path_flapping") →
      ∀ x ∈ (l.foldl (fun acc p =>
          let r := detect_routing_for_probe cfg ts pd acc.2 p.1 p.2
          (acc.1 ++ r.1, r.2)) acc).1,
        x.anomaly = "route_change" ∨ x.anomaly = "path_flapping" := by
    intro l
    induction l with
    | nil => intro acc hacc x hx; exact hacc x hx
    | cons p rest ih =>
      intro acc hacc x hx
      refine ih _ ?_ x hx
      intro y hy
      rcases List.mem_append.1 hy with h | h
      · exact hacc y h
      · exact (detect_routing_for_probe_cases cfg ts pd acc.2 p.1 p.2 y h).1
  exact haux pd.targets ([], history) (by intro x hx; cases hx) e he

/-- Filtering a conditional two-part append both of whose parts filter to
nothing yields nothing. -/
theorem filter_if_append_nil {p : Event → Bool} {c : Prop} [Decidable c]
    {A B : List Event} (hA : A.filter p = []) (hB : B.filter p = []) :
    (if c then A ++ B else []).filter p = [] := by
  split
  · rw [List.filter_append, hA, hB]
    rfl
  · rfl

/-- If the predicate pins the probe id to `pid` and `pid` does not occur
among the keys, the threshold fold contributes nothing to the filter. -/
theorem threshold_fold_filter_not_mem (cfg : Config) (ts : String) (pd : ProbeData)
    (pr : Event → Bool) (pid : String) (hpr : ∀ e, pr e = true → e.probe_id = pid) :
    ∀ (l : List (String × Option String)), pid ∉ l.map Prod.fst →
      (l.foldr (fun p acc => detect_threshold_for_probe cfg ts pd p.1 p.2 ++ acc) []).filter pr
        = [] := by
  intro l
  induction l with
  | nil => intro _; rfl
  | cons p rest ih =>
    intro hnm
    simp only [List.map_cons, List.mem_cons] at hnm
    push_neg at hnm
    simp only [List.foldr_cons, List.filter_append, ih hnm.2, List.append_nil]
    rw [List.filter_eq_nil_iff]
    intro e he hpre
    exact hnm.1 ((hpr e hpre).symm.trans
      (detect_threshold_for_probe_cases cfg ts pd p.1 p.2 e he).1)

/-- With unique keys and `pid` bound to `tgt`, filtering the threshold fold
by a predicate that pins the probe id to `pid` reduces to filtering the
single per-probe pass for `(pid, tgt)`. -/
theorem threshold_fold_filter_unique (cfg : Config) (ts : String) (pd : ProbeData)
    (pr : Event → Bool) (pid : String) (tgt : Option String)
    (hpr : ∀ e, pr e = true → e.probe_id = pid) :
    ∀ (l : List (String × Option String)), (l.map Prod.fst).Nodup →
      PyDict.get l pid = some tgt →
      (l.foldr (fun p acc => detect_threshold_for_probe cfg ts pd p.1 p.2 ++ acc) []).filter pr
        = (detect_threshold_for_probe cfg ts pd pid tgt).filter pr := by
  intro l
  induction l with
  | nil => intro _ h; cases h
  | cons p rest ih =>
    rcases p with ⟨k0, t0⟩
    intro hnd hget
    simp only [List.map_cons, List.nodup_cons] at hnd
    by_cases hk : k0 = pid
    · subst hk
      unfold PyDict.get at hget
      rw [if_pos rfl] at hget
      obtain rfl : t0 = tgt := Option.some.inj hget
      simp only [List.foldr_cons, List.filter_append]
      rw [threshold_fold_filter_not_mem cfg ts pd pr k0 hpr rest hnd.1,
        List.append_nil]
    · unfold PyDict.get at hget
      rw [if_neg hk] at hget
      simp only [List.foldr_cons, List.filter_append, ih hnd.2 hget]
      have hhead : (detect_threshold_for_probe cfg ts pd k0 t0).filter pr = [] := by
        rw [List.filter_eq_nil_iff]
        intro e he hpre
        exact hk (((detect_threshold_for_probe_cases cfg ts pd k0 t0 e he).1).symm.trans
          (hpr e hpre))
      rw [hhead, List.nil_append]

/-- The per-probe threshold pass, filtered down to `unreachable_host` events
for its own probe, is exactly the single critical reachability event, and it
appears exactly when the probe's loss is truthy and equal to 100. -/
theorem detect_threshold_for_probe_filter_unreach (cfg : Config) (ts : String)
    (pd : ProbeData) (pid : String) (tgt : Option String) :
    (detect_threshold_for_probe cfg ts pd pid tgt).filter
      (fun e => decide (e.probe_id = pid) && decide (e.anomaly = "unreachable_host")) =
    if (qtruthy ((PyDict.get pd.losses pid).getD none) &&
        decide (qval ((PyDict.get pd.losses pid).getD none) = 100)) = true then
      [create_event ts "unreachable_host" pid tgt "reachability" (some 0) (some 1)
        "reachable_flag" "critical"]
    else [] := by
  simp only [detect_threshold_for_probe]
  rw [List.filter_append, List.filter_append, List.filter_append]
  rw [filter_if_append_nil (filter_if_single (by simp)) (filter_if_single (by simp))]
  rw [filter_if_single (a := create_event ts "packet_loss" pid tgt "ping_loss_pct"
        ((PyDict.get pd.losses pid).getD none)
        (some cfg.thresholds.packet_loss_percentage) "%" "warning") (by simp)]
  rw [filter_if_single (a := create_event ts "jitter_spike" pid tgt "ping_jitter_ms"
        (PyDict.get pd.jitters pid)
        (some cfg.thresholds.jitter_spike_ms) "ms" "warning") (by simp)]
  rw [filter_if_single_pos (a := create_event ts "unreachable_host" pid tgt "reachability"
        (some 0) (some 1) "reachable_flag" "critical") (by simp)]
  simp

/-- Claim C5: whenever the collected loss for probe `pid` is the non-null
value `w`, the full `analyze_measurement` event list contains exactly one
`unreachable_host` event for that probe precisely when `w = 100.0` (and none
otherwise, also for `w > 100`), with value 0, threshold 1, units
`reachable_flag`, severity critical, independently of the probe's latency
value. -/
theorem unreachable_ping_exactly_once (cfg : Config) (stdev : List ℚ → ℚ)
    (ts : String) (results : List ResultRecord) (st : EngineState)
    (pid : String) (tgt : Option String) (w : ℚ)
    (hloss : PyDict.get (collect_probe_data cfg stdev results st.baselines).1.losses pid
      = some (some w))
    (htgt : PyDict.get (collect_probe_data cfg stdev results st.baselines).1.targets pid
      = some tgt) :
    (analyze_measurement cfg stdev ts results st).1.filter
      (fun e => decide (e.probe_id = pid) && decide (e.anomaly = "unreachable_host")) =
    if w = 100 then
      [create_event ts "unreachable_host" pid tgt "reachability" (some 0) (some 1)
        "reachable_flag" "critical"]
    else [] := by
  obtain ⟨hndT, hndLat, hndLoss⟩ := collect_nodupKeys cfg stdev results st.baselines
  have hpr : ∀ e : Event,
      (decide (e.probe_id = pid) && decide (e.anomaly = "unreachable_host")) = true →
      e.probe_id = pid := by
    intro e he
    rw [Bool.and_eq_true, decide_eq_true_iff, decide_eq_true_iff] at he
    exact he.1
  unfold analyze_measurement
  dsimp only
  rw [List.filter_append, List.filter_append]
  have houtlier : (detect_outlier_anomalies cfg ts
      (collect_probe_data cfg stdev results st.baselines).1).filter
      (fun e => decide (e.probe_id = pid) && decide (e.anomaly = "unreachable_host")) = [] := by
    rw [List.filter_eq_nil_iff]
    intro e he hpre
    rw [Bool.and_eq_true, decide_eq_true_iff, decide_eq_true_iff] at hpre
    rcases detect_outlier_anomalies_cases cfg ts _ e he with ⟨ha, _⟩ | ⟨ha, _⟩ <;>
      rw [ha] at hpre <;> exact absurd hpre.2 (by decide)
  have hrouting : ((detect_routing_anomalies cfg ts
      (collect_probe_data cfg stdev results st.baselines).1 st.route_history).1).filter
      (fun e => decide (e.probe_id = pid) && decide (e.anomaly = "unreachable_host")) = [] := by
    rw [List.filter_eq_nil_iff]
    intro e he hpre
    rw [Bool.and_eq_true, decide_eq_true_iff, decide_eq_true_iff] at hpre
    rcases detect_routing_anomalies_cases cfg ts _ _ e he with ha | ha <;>
      rw [ha] at hpre <;> exact absurd hpre.2 (by decide)
  rw [houtlier, hrouting]
  unfold detect_threshold_anomalies
  rw [threshold_fold_filter_unique cfg ts _ _ pid tgt hpr
      (collect_probe_data cfg stdev results st.baselines).1.targets hndT htgt]
  rw [detect_threshold_for_probe_filter_unreach]
  rw [hloss]
  by_cases hw : w = 100
  · subst hw
    simp
  · simp [hw]

/-- Witness for claim C5: a ping record with loss 100 and latency 20 yields
exactly the one critical `unreachable_host` event for its probe. -/
theorem unreachable_ping_exactly_once_witness :
    (analyze_measurement defaultConfig zeroStdev ""
      [pingRecord "P" "T" (some 20) [] (some 100) none] initialEngineState).1.filter
      (fun e => decide (e.probe_id = "P") && decide (e.anomaly = "unreachable_host")) =
    [create_event "" "unreachable_host" "P" (some "T") "reachability" (some 0) (some 1)
      "reachable_flag" "critical"] :=
  (unreachable_ping_exactly_once defaultConfig zeroStdev ""
    [pingRecord "P" "T" (some 20) [] (some 100) none] initialEngineState
    "P" (some "T") 100 (by decide) (by decide)).trans (by decide)

/-- Every event of the threshold detector comes from the per-probe pass of
some entry of the `targets` dict. -/
theorem mem_detect_threshold_anomalies (cfg : Config) (ts : String) (pd : ProbeData)
    (e : Event) (he : e ∈ detect_threshold_anomalies cfg ts pd) :
    ∃ p, p ∈ pd.targets ∧ e ∈ detect_threshold_for_probe cfg ts pd p.1 p.2 := by
  unfold detect_threshold_anomalies at he
  generalize pd.targets = l at he ⊢
  induction l with
  | nil => cases he
  | cons p rest ih =>
    rcases List.mem_append.1 he with h | h
    · exact ⟨p, List.mem_cons_self p rest, h⟩
    · obtain ⟨q, hq, hqe⟩ := ih h
      exact ⟨q, List.mem_cons_of_mem p hq, hqe⟩

/-- Claim C10: a collected latency of exactly `0.0` behaves like a missing
value — no `latency_spike` (static or adaptive) and no
`outlier_probe_latency` event is emitted for that probe — and a collected
loss of exactly `0.0` likewise produces no `packet_loss`, no
`unreachable_host` and no `outlier_probe_loss` event: the guards test Python
truthiness, not non-nullness. -/
theorem zero_values_treated_as_missing (cfg : Config) (stdev : List ℚ → ℚ)
    (ts : String) (results : List ResultRecord) (st : EngineState) (pid : String) :
    (PyDict.get (collect_probe_data cfg stdev results st.baselines).1.latencies pid
        = some (some 0) →
      (analyze_measurement cfg stdev ts results st).1.filter
        (fun e => decide (e.probe_id = pid) &&
          (decide (e.anomaly = "latency_spike") ||
           decide (e.anomaly = "outlier_probe_latency"))) = [])
    ∧ (PyDict.get (collect_probe_data cfg stdev results st.baselines).1.losses pid
        = some (some 0) →
      (analyze_measurement cfg stdev ts results st).1.filter
        (fun e => decide (e.probe_id = pid) &&
          (decide (e.anomaly = "packet_loss") || decide (e.anomaly = "unreachable_host") ||
           decide (e.anomaly = "outlier_probe_loss"))) = []) := by
  obtain ⟨hndT, hndLat, hndLoss⟩ := collect_nodupKeys cfg stdev results st.baselines
  constructor
  · intro hlat0
    unfold analyze_measurement
    dsimp only
    rw [List.filter_eq_nil_iff]
    intro e he hpre
    rw [Bool.and_eq_true, decide_eq_true_iff, Bool.or_eq_true, decide_eq_true_iff,
      decide_eq_true_iff] at hpre
    obtain ⟨hepid, hanom⟩ := hpre
    rcases List.mem_append.1 he with he1 | he3
    · rcases List.mem_append.1 he1 with he1 | he2
      · rcases detect_outlier_anomalies_cases cfg ts _ e he1 with
          ⟨ha, p, hp, hpid2, htr⟩ | ⟨ha, _⟩
        · have hget : PyDict.get
              (collect_probe_data cfg stdev results st.baselines).1.latencies p.1
              = some p.2 := PyDict.get_of_mem_nodup hndLat hp
          rw [hpid2.symm.trans hepid, hlat0] at hget
          rw [← Option.some.inj hget] at htr
          exact absurd htr (by decide)
        · rw [ha] at hanom
          rcases hanom with h | h <;> exact absurd h (by decide)
      · obtain ⟨p, hpT, hePP⟩ := mem_detect_threshold_anomalies cfg ts _ e he2
        obtain ⟨hpid2, hcase⟩ := detect_threshold_for_probe_cases cfg ts _ p.1 p.2 e hePP
        rcases hcase with ⟨ha, htr⟩ | ⟨ha, htr⟩ | ha
        · rw [hpid2.symm.trans hepid, hlat0] at htr
          exact absurd htr (by decide)
        · rcases ha with ha | ha <;> rw [ha] at hanom <;>
            rcases hanom with h | h <;> exact absurd h (by decide)
        · rw [ha] at hanom
          rcases hanom with h | h <;> exact absurd h (by decide)
    · rcases detect_routing_anomalies_cases cfg ts _ _ e he3 with ha | ha <;>
        rw [ha] at hanom <;> rcases hanom with h | h <;> exact absurd h (by decide)
  · intro hloss0
    unfold analyze_measurement
    dsimp only
    rw [List.filter_eq_nil_iff]
    intro e he hpre
    rw [Bool.and_eq_true, decide_eq_true_iff, Bool.or_eq_true, Bool.or_eq_true,
      decide_eq_true_iff, decide_eq_true_iff, decide_eq_true_iff] at hpre
    obtain ⟨hepid, hanom⟩ := hpre
    rcases List.mem_append.1 he with he1 | he3
    · rcases List.mem_append.1 he1 with he1 | he2
      · rcases detect_outlier_anomalies_cases cfg ts _ e he1 with
          ⟨ha, _⟩ | ⟨ha, p, hp, hpid2, htr⟩
        · rw [ha] at hanom
          rcases hanom with (h | h) | h <;> exact absurd h (by decide)
        · have hget : PyDict.get
              (collect_probe_data cfg stdev results st.baselines).1.losses p.1
              = some p.2 := PyDict.get_of_mem_nodup hndLoss hp
          rw [hpid2.symm.trans hepid, hloss0] at hget
          rw [← Option.some.inj hget] at htr
          exact absurd htr (by decide)
      · obtain ⟨p, hpT, hePP⟩ := mem_detect_threshold_anomalies cfg ts _ e he2
        obtain ⟨hpid2, hcase⟩ := detect_threshold_for_probe_cases cfg ts _ p.1 p.2 e hePP
        rcases hcase with ⟨ha, htr⟩ | ⟨ha, htr⟩ | ha
        · rw [ha] at hanom
          rcases hanom with (h | h) | h <;> exact absurd h (by decide)
        · rw [hpid2.symm.trans hepid, hloss0] at htr
          exact absurd htr (by decide)
        · rw [ha] at hanom
          rcases hanom with (h | h) | h <;> exact absurd h (by decide)
    · rcases detect_routing_anomalies_cases cfg ts _ _ e he3 with ha | ha <;>
        rw [ha] at hanom <;> rcases hanom with (h | h) | h <;> exact absurd h (by decide)

/-- Witness for claim C10: a ping record with latency exactly `0.0` and loss
exactly `0.0` yields no latency, loss, reachability or outlier event. -/
theorem zero_values_treated_as_missing_witness :
    ((analyze_measurement defaultConfig zeroStdev ""
      [pingRecord "P" "T" (some 0) [] (some 0) none] initialEngineState).1.filter
      (fun e => decide (e.probe_id = "P") &&
        (decide (e.anomaly = "latency_spike") ||
         decide (e.anomaly = "outlier_probe_latency"))) = [])
    ∧ ((analyze_measurement defaultConfig zeroStdev ""
      [pingRecord "P" "T" (some 0) [] (some 0) none] initialEngineState).1.filter
      (fun e => decide (e.probe_id = "P") &&
        (decide (e.anomaly = "packet_loss") || decide (e.anomaly = "unreachable_host") ||
         decide (e.anomaly = "outlier_probe_loss"))) = []) :=
  ⟨(zero_values_treated_as_missing defaultConfig zeroStdev ""
      [pingRecord "P" "T" (some 0) [] (some 0) none] initialEngineState "P").1 (by decide),
   (zero_values_treated_as_missing defaultConfig zeroStdev ""
      [pingRecord "P" "T" (some 0) [] (some 0) none] initialEngineState "P").2 (by decide)⟩

/-! ## Path-flapping machinery (claim C3) -/

theorem hopIps_map_some : ∀ (obs : List String), (∀ s ∈ obs, s ≠ "") →
    hopIps (obs.map (fun s => ⟨some s⟩)) = obs
  | [], _ => rfl
  | a :: rest, h => by
    have ha : a ≠ "" := h a (List.mem_cons_self a rest)
    have ih := hopIps_map_some rest (fun s hs => h s (List.mem_cons_of_mem a hs))
    simp only [List.map_cons, hopIps, List.filterMap_cons] at ih ⊢
    rw [if_neg ha, ih]

/-- Collecting a single traceroute record produces exactly one target, one
hop list, and one fetched hop baseline, and overwrites the stored hop
baseline. -/
theorem collect_single_traceroute (cfg : Config) (stdev : List ℚ → ℚ)
    (pid tgt : String) (obs : List String) (store : BaselineStore)
    (hpid : pid ≠ "") (htgt : tgt ≠ "") (hips : ∀ s ∈ obs, s ≠ "") :
    collect_probe_data cfg stdev [tracerouteRecord pid tgt obs] store
    = (⟨[], [], [], [], [(pid, some tgt)], [(pid, obs)], [],
        [(pid, PyDict.get store.hops (pid ++ "_" ++ tgt))]⟩,
       ⟨store.rtts, PyDict.set store.hops (pid ++ "_" ++ tgt) obs⟩) := by
  have htarget : pyOrStr (some tgt) none = some tgt := by
    simp [pyOrStr, htgt]
  simp only [collect_probe_data, List.foldl_cons, List.foldl_nil, collect_step,
    tracerouteRecord, htarget, process_traceroute_data, get_and_update_baseline_hops,
    hopIps_map_some obs hips, emptyProbeData, baselineKey, tgtStr, PyDict.set,
    if_neg hpid]
  simp

/-- The outlier detector is silent when no latency and no loss was
collected. -/
theorem outlier_no_metrics (cfg : Config) (ts : String) (pd : ProbeData)
    (h1 : pd.latencies = []) (h2 : pd.losses = []) :
    detect_outlier_anomalies cfg ts pd = [] := by
  unfold detect_outlier_anomalies
  rw [h1, h2]
  simp

/-- The threshold detector is silent when no latency, loss or jitter was
collected. -/
theorem threshold_no_metrics (cfg : Config) (ts : String) (pd : ProbeData)
    (h1 : pd.latencies = []) (h2 : pd.losses = []) (h3 : pd.jitters = []) :
    detect_threshold_anomalies cfg ts pd = [] := by
  have hper : ∀ k t, detect_threshold_for_probe cfg ts pd k t = [] := by
    intro k t
    unfold detect_threshold_for_probe
    rw [h1, h2, h3]
    simp [PyDict.get]
  unfold detect_threshold_anomalies
  generalize pd.targets = l
  induction l with
  | nil => rfl
  | cons p rest ih => simp [hper, ih]

/-- Routing detection over a single-entry target dict is the single
per-probe pass. -/
theorem routing_anomalies_single (cfg : Config) (ts : String) (pd : ProbeData)
    (history : PyDict (List (List String))) (k : String) (t : Option String)
    (h : pd.targets = [(k, t)]) :
    detect_routing_anomalies cfg ts pd history
    = ((detect_routing_for_probe cfg ts pd history k t).1,
       (detect_routing_for_probe cfg ts pd history k t).2) := by
  unfold detect_routing_anomalies
  rw [h]
  simp only [List.foldl_cons, List.foldl_nil, List.nil_append]

/-- A conditional singleton none of whose elements passes the predicate
makes `any` false. -/
theorem any_if_single {α : Type} {p : α → Bool} {c : Prop} [Decidable c] {a : α}
    (h : p a = false) : (if c then [a] else []).any p = false := by
  split <;> simp [h]

/-- The per-probe routing pass: a `path_flapping` event is present exactly
when, after appending the current hop list, the history holds strictly more
than `flapping_window` entries and the trailing window has at least two
distinct routes; the history entry is always extended by the observation. -/
theorem routing_for_probe_flap (cfg : Config) (ts : String) (pd : ProbeData)
    (history : PyDict (List (List String))) (k : String) (t : Option String)
    (obs : List String)
    (hcur : PyDict.get pd.traceroute_hops k = some obs) (hobs : obs ≠ []) :
    ((detect_routing_for_probe cfg ts pd history k t).1.any
        (fun e => decide (e.anomaly = "path_flapping"))
      = (decide (((PyDict.get history (routeKey k t)).getD [] ++ [obs]).length
            > cfg.thresholds.path_flapping_window)
         && decide (1 < (pyTail ((PyDict.get history (routeKey k t)).getD [] ++ [obs])
            cfg.thresholds.path_flapping_window).dedup.length)))
    ∧ (detect_routing_for_probe cfg ts pd history k t).2
      = PyDict.set history (routeKey k t)
          ((PyDict.get history (routeKey k t)).getD [] ++ [obs]) := by
  unfold detect_routing_for_probe
  rw [hcur]
  dsimp only
  simp only [Option.getD_some]
  have hl : ltruthy (some obs) = true := by simp [ltruthy, hobs]
  rw [hl]
  by_cases hlen : ((PyDict.get history (routeKey k t)).getD [] ++ [obs]).length
      > cfg.thresholds.path_flapping_window
  · rw [if_pos rfl, if_pos hlen]
    by_cases hded : 1 < (pyTail ((PyDict.get history (routeKey k t)).getD [] ++ [obs])
        cfg.thresholds.path_flapping_window).dedup.length
    · rw [if_pos hded]
      refine ⟨?_, rfl⟩
      rw [List.any_append, any_if_single (by simp)]
      rw [decide_eq_true hlen, decide_eq_true hded]
      simp
    · rw [if_neg hded]
      refine ⟨?_, rfl⟩
      rw [any_if_single (by simp)]
      rw [decide_eq_true hlen, decide_eq_false hded]
      simp
  · rw [if_pos rfl, if_neg hlen]
    refine ⟨?_, rfl⟩
    rw [any_if_single (by simp)]
    rw [decide_eq_false hlen]
    simp

/-- One `analyze_measurement` call on a single traceroute observation: a
`path_flapping` event appears exactly when the extended history for the
(probe, target) key exceeds the window and the trailing window holds at
least two distinct routes; the history entry always grows by the
observation. -/
theorem analyze_traceroute_step (cfg : Config) (stdev : List ℚ → ℚ) (ts : String)
    (pid tgt : String) (obs : List String) (st : EngineState)
    (hpid : pid ≠ "") (htgt : tgt ≠ "") (hobs : obs ≠ []) (hips : ∀ s ∈ obs, s ≠ "") :
    ((analyze_measurement cfg stdev ts [tracerouteRecord pid tgt obs] st).1.any
        (fun e => decide (e.anomaly = "path_flapping"))
      = (decide (((PyDict.get st.route_history (pid ++ "_" ++ tgt)).getD [] ++ [obs]).length
            > cfg.thresholds.path_flapping_window)
         && decide (1 < (pyTail
            ((PyDict.get st.route_history (pid ++ "_" ++ tgt)).getD [] ++ [obs])
            cfg.thresholds.path_flapping_window).dedup.length)))
    ∧ PyDict.get
        (analyze_measurement cfg stdev ts [tracerouteRecord pid tgt obs] st).2.route_history
        (pid ++ "_" ++ tgt)
      = some ((PyDict.get st.route_history (pid ++ "_" ++ tgt)).getD [] ++ [obs]) := by
  have hc := collect_single_traceroute cfg stdev pid tgt obs st.baselines hpid htgt hips
  unfold analyze_measurement
  dsimp only
  rw [hc]
  dsimp only
  rw [outlier_no_metrics cfg ts _ rfl rfl, threshold_no_metrics cfg ts _ rfl rfl rfl]
  rw [routing_anomalies_single cfg ts _ st.route_history pid (some tgt) rfl]
  have hflap := routing_for_probe_flap cfg ts
    ⟨[], [], [], [], [(pid, some tgt)], [(pid, obs)], [],
      [(pid, PyDict.get st.baselines.hops (pid ++ "_" ++ tgt))]⟩
    st.route_history pid (some tgt) obs (by simp [PyDict.get]) hobs
  constructor
  · simp only [List.nil_append, List.append_nil]
    exact hflap.1
  · dsimp only
    rw [hflap.2]
    exact PyDict.get_set_self _ _ _

/-- Feeding one observation per call, the `n`-th call's events contain a
`path_flapping` event exactly when the previously accumulated history plus
the first `n + 1` observations exceed the window and their trailing window
holds at least two distinct routes. -/
theorem runTraceSeq_flap_aux (cfg : Config) (stdev : List ℚ → ℚ) (ts : String)
    (pid tgt : String) (hpid : pid ≠ "") (htgt : tgt ≠ "") :
    ∀ (obss : List (List String)) (st : EngineState) (past : List (List String)),
      (∀ o ∈ obss, o ≠ [] ∧ ∀ s ∈ o, s ≠ "") →
      (PyDict.get st.route_history (pid ++ "_" ++ tgt)).getD [] = past →
      ∀ n, n < obss.length →
        ((runTraceSeq cfg stdev ts pid tgt st obss).getD n []).any
            (fun e => decide (e.anomaly = "path_flapping"))
          = (decide ((past ++ obss.take (n + 1)).length
              > cfg.thresholds.path_flapping_window)
             && decide (1 < (pyTail (past ++ obss.take (n + 1))
                cfg.thresholds.path_flapping_window).dedup.length)) := by
  intro obss
  induction obss with
  | nil =>
    intro st past h hpast n hn
    cases hn
  | cons obs rest ih =>
    intro st past h hpast n hn
    have hobs := h obs (List.mem_cons_self obs rest)
    have hstep := analyze_traceroute_step cfg stdev ts pid tgt obs st hpid htgt
      hobs.1 hobs.2
    rw [hpast] at hstep
    rcases n with _ | m
    · simp only [runTraceSeq, List.getD_cons_zero]
      simpa using hstep.1
    · simp only [runTraceSeq, List.getD_cons_succ]
      have hpast2 : (PyDict.get
          (analyze_measurement cfg stdev ts [tracerouteRecord pid tgt obs] st).2.route_history
          (pid ++ "_" ++ tgt)).getD [] = past ++ [obs] := by
        rw [hstep.2]
        rfl
      have hrec := ih
        (analyze_measurement cfg stdev ts [tracerouteRecord pid tgt obs] st).2
        (past ++ [obs]) (fun o ho => h o (List.mem_cons_of_mem obs ho)) hpast2 m
        (by simpa using hn)
      have hlist : past ++ (obs :: rest).take (m + 1 + 1)
          = (past ++ [obs]) ++ rest.take (m + 1) := by
        simp
      rw [hlist, hrec]

/-- Claim C3 (amended): starting from a fresh engine state and feeding one
hop-path observation per `analyze_measurement` call for one (probe, target),
the `n`-th call emits a `path_flapping` event exactly when the number of
observations so far (`n + 1`) strictly exceeds `flapping_window` and the
trailing `flapping_window` observations contain at least two distinct
exact-sequence routes; in particular nothing fires while the history holds
at most `flapping_window` observations, so hop lists `[A,B,C]`, `[A,B,D]`,
`[A,B,C]` with window 3 produce no event on the third observation (see the
counterexample), and a fourth observation keeping two distinct routes in the
window fires. -/
theorem path_flapping_iff (cfg : Config) (stdev : List ℚ → ℚ) (ts : String)
    (pid tgt : String) (obss : List (List String)) (n : Nat)
    (hpid : pid ≠ "") (htgt : tgt ≠ "")
    (hobss : ∀ o ∈ obss, o ≠ [] ∧ ∀ s ∈ o, s ≠ "")
    (hn : n < obss.length) :
    ((runTraceSeq cfg stdev ts pid tgt initialEngineState obss).getD n []).any
        (fun e => decide (e.anomaly = "path_flapping")) = true
    ↔ (n + 1 > cfg.thresholds.path_flapping_window
       ∧ 1 < (pyTail (obss.take (n + 1))
          cfg.thresholds.path_flapping_window).dedup.length) := by
  have h := runTraceSeq_flap_aux cfg stdev ts pid tgt hpid htgt obss
    initialEngineState [] hobss rfl n hn
  rw [h, Bool.and_eq_true, decide_eq_true_iff, decide_eq_true_iff]
  have hlen : (obss.take (n + 1)).length = n + 1 := by
    rw [List.length_take]
    omega
  rw [List.nil_append, hlen]

/-- Witness for the amended claim C3: observations `[A]`, `[B]`, `[A]`,
`[B]` with the default window 3 fire `path_flapping` on the fourth call
(four observations exceed the window, and the trailing three contain two
distinct routes). -/
theorem path_flapping_iff_witness :
    ((runTraceSeq defaultConfig zeroStdev "" "p" "t" initialEngineState
      [["A"], ["B"], ["A"], ["B"]]).getD 3 []).any
      (fun e => decide (e.anomaly = "path_flapping")) = true :=
  (path_flapping_iff defaultConfig zeroStdev "" "p" "t"
    [["A"], ["B"], ["A"], ["B"]] 3 (by decide) (by decide) (by decide)
    (by decide)).mpr (by decide)
